import Mathlib

/-!
Verification of the GateKeeper resilient HTTP transport: a shallow embedding
of the resiliency layer (retry policy, circuit breaker, rate limiter,
bulkhead) and its decorator chain, with theorems checking the stated
properties of each component.

Conventions of the embedding:
- Go `int`/`int64` (including `time.Duration`, in nanoseconds, and
  `time.Time` instants) are modelled as `Int`.
- Go `float64` is modelled as `Rat` (real-number semantics of the float
  arithmetic); the conversion `time.Duration(f)` truncates toward zero and
  is modelled by `ratTrunc`.
- Each call to `time.Now()` becomes an explicit `now` argument.
- Mutation of a shared struct under its mutex becomes explicit state
  passing: a Go method that mutates its receiver returns the updated value.
- A Go `error` result is an `Option GoError` (`none` = `nil`).
-/

/-- Classification of the underlying cause (the `Err` field) of an
`HTTPError`: a `net.Error` whose `Timeout()` reports true, some other
`net.Error`, or an error that is not a `net.Error` at all (for example a
context cancellation error). This is what the `errors.As` probes in
`IsTimeout`/`IsNetworkError` observe. -/
inductive ErrCause where
  | netTimeout
  | netOther
  | nonNet
deriving DecidableEq, Repr

/-- models.Response, restricted to the field the resiliency layer reads. -/
structure Resp where
  statusCode : Int
deriving DecidableEq, Repr

/-- models.HTTPError: status code (0 when no response was received), the
message, the optional underlying cause (`Err`), and the optional response. -/
structure HTTPError where
  statusCode : Int
  message : String
  cause : Option ErrCause
  response : Option Resp
deriving DecidableEq, Repr

/-- A Go `error` value as seen by the transport chain: a structured
`*models.HTTPError`, a plain error built with `errors.New`, or the
context's cancellation error `ctx.Err()`. -/
inductive GoError where
  | httpErr (e : HTTPError)
  | simple (msg : String)
  | ctxCanceled
deriving DecidableEq, Repr

/-- HTTPError.IsTimeout: true when the underlying cause is a `net.Error`
whose `Timeout()` reports true; false when `Err` is nil or not a timeout. -/
def HTTPError.IsTimeout (e : HTTPError) : Bool :=
  match e.cause with
  | some ErrCause.netTimeout => true
  | _ => false

/-- HTTPError.IsTemporary: with no underlying cause, true exactly for 5xx
status codes; with a cause, true for timeouts and for 5xx status codes. -/
def HTTPError.IsTemporary (e : HTTPError) : Bool :=
  match e.cause with
  | none => decide (500 ≤ e.statusCode ∧ e.statusCode < 600)
  | some _ =>
    if e.IsTimeout then true
    else decide (500 ≤ e.statusCode ∧ e.statusCode < 600)

/-- HTTPError.IsClientError: true for 4xx status codes. -/
def HTTPError.IsClientError (e : HTTPError) : Bool :=
  decide (400 ≤ e.statusCode ∧ e.statusCode < 500)

/-- HTTPError.IsServerError: true for 5xx status codes. -/
def HTTPError.IsServerError (e : HTTPError) : Bool :=
  decide (500 ≤ e.statusCode ∧ e.statusCode < 600)

/-- HTTPError.IsNetworkError: true when the underlying cause is any
`net.Error`. -/
def HTTPError.IsNetworkError (e : HTTPError) : Bool :=
  match e.cause with
  | some ErrCause.netTimeout => true
  | some ErrCause.netOther => true
  | _ => false

/-- resiliency.RetryPolicy: immutable retry configuration. Delays are in
nanoseconds; the backoff multiplier is a float, modelled as `Rat`. -/
structure RetryPolicy where
  maxAttempts : Int
  initialDelay : Int
  maxDelay : Int
  multiplier : Rat
  retryableErrors : List Int
deriving DecidableEq, Repr

/-- resiliency.NewRetryPolicy: 100ms initial delay, 30s max delay,
multiplier 2.0, and the default retryable status codes. -/
def NewRetryPolicy (maxAttempts : Int) : RetryPolicy :=
  { maxAttempts := maxAttempts
    initialDelay := 100000000
    maxDelay := 30000000000
    multiplier := 2
    retryableErrors := [408, 429, 500, 502, 503, 504] }

/-- RetryPolicy.ShouldRetry: no retry at or past `maxAttempts`; for an
`*HTTPError`, retry on timeout or temporary errors, then on listed status
codes, refuse other 4xx, retry other 5xx; any other error value (including
plain `errors.New` errors) is not retried. -/
def RetryPolicy.ShouldRetry (rp : RetryPolicy) (err : GoError) (attempt : Int) : Bool :=
  if attempt ≥ rp.maxAttempts then false
  else
    match err with
    | GoError.httpErr e =>
      if e.IsTimeout || e.IsTemporary then true
      else if rp.retryableErrors.contains e.statusCode then true
      else if e.IsClientError then false
      else if e.IsServerError then true
      else false
    | _ => false

/-- Go's conversion `time.Duration(f)` of a `float64` to `int64`:
truncation toward zero. -/
def ratTrunc (q : Rat) : Int :=
  q.num.tdiv (q.den : Int)

/-- Go's `math.Pow` on a rational base with an integral exponent:
repeated multiplication, reciprocal for negative exponents. -/
def ratPow (q : Rat) (z : Int) : Rat :=
  if 0 ≤ z then q ^ z.toNat else (q ^ (-z).toNat)⁻¹

/-- RetryPolicy.GetDelay: 0 for attempt 0, otherwise
`initialDelay * multiplier^(attempt-1)` converted to a duration and capped
at `maxDelay`. -/
def RetryPolicy.GetDelay (rp : RetryPolicy) (attempt : Int) : Int :=
  if attempt = 0 then 0
  else
    let delay : Rat := (rp.initialDelay : Rat) * ratPow rp.multiplier (attempt - 1)
    let delayDuration : Int := ratTrunc delay
    if delayDuration > rp.maxDelay then rp.maxDelay else delayDuration

/-- A `Send` result: the optional `IHTTPResponse` and the optional error. -/
abbrev SendRes := Option Resp × Option GoError

/-- interfaces.CircuitState. The Go constants are `StateClosed`,
`StateOpen`, `StateHalfOpen`; `StateOpen` is rendered `opened` because
`open` is reserved in Lean. -/
inductive CircuitState where
  | closed
  | opened
  | halfOpen
deriving DecidableEq, Repr

/-- resiliency.CircuitBreaker. Times are instants in nanoseconds (the Go
zero `time.Time` is modelled as instant 0); `timeout` is the open-state
timeout duration in nanoseconds. -/
structure CircuitBreaker where
  state : CircuitState
  failureCount : Int
  successCount : Int
  lastFailureTime : Int
  lastSuccessTime : Int
  failureThreshold : Int
  successThreshold : Int
  timeout : Int
deriving DecidableEq, Repr

/-- resiliency.NewCircuitBreaker: closed, zero counters, default
`successThreshold` of 2. -/
def NewCircuitBreaker (failureThreshold timeout : Int) : CircuitBreaker :=
  { state := CircuitState.closed
    failureCount := 0
    successCount := 0
    lastFailureTime := 0
    lastSuccessTime := 0
    failureThreshold := failureThreshold
    successThreshold := 2
    timeout := timeout }

/-- CircuitBreaker.canExecute at instant `now`: closed and half-open admit;
open admits only when more than `timeout` has passed since the last
failure, in which case the same check transitions to half-open and resets
`successCount`. Returns the admission decision and the updated breaker. -/
def CircuitBreaker.canExecute (cb : CircuitBreaker) (now : Int) : Bool × CircuitBreaker :=
  match cb.state with
  | CircuitState.closed => (true, cb)
  | CircuitState.opened =>
    if now - cb.lastFailureTime > cb.timeout then
      (true, { cb with state := CircuitState.halfOpen, successCount := 0 })
    else
      (false, cb)
  | CircuitState.halfOpen => (true, cb)

/-- CircuitBreaker.onFailure at instant `now`: increment `failureCount` and
stamp `lastFailureTime`; while closed, open (and reset the count) once the
threshold is reached; while half-open, open immediately and reset both
counters. -/
def CircuitBreaker.onFailure (cb : CircuitBreaker) (now : Int) : CircuitBreaker :=
  let cb1 := { cb with failureCount := cb.failureCount + 1, lastFailureTime := now }
  match cb1.state with
  | CircuitState.closed =>
    if cb1.failureCount ≥ cb1.failureThreshold then
      { cb1 with state := CircuitState.opened, failureCount := 0 }
    else cb1
  | CircuitState.halfOpen =>
    { cb1 with state := CircuitState.opened, failureCount := 0, successCount := 0 }
  | CircuitState.opened => cb1

/-- CircuitBreaker.onSuccess at instant `now`: stamp `lastSuccessTime`;
while closed, reset `failureCount`; while half-open, count the success and
close once `successThreshold` is reached. -/
def CircuitBreaker.onSuccess (cb : CircuitBreaker) (now : Int) : CircuitBreaker :=
  let cb1 := { cb with lastSuccessTime := now }
  match cb1.state with
  | CircuitState.closed => { cb1 with failureCount := 0 }
  | CircuitState.halfOpen =>
    let cb2 := { cb1 with successCount := cb1.successCount + 1 }
    if cb2.successCount ≥ cb2.successThreshold then
      { cb2 with state := CircuitState.closed, failureCount := 0, successCount := 0 }
    else cb2
  | CircuitState.opened => cb1

/-- CircuitBreaker.recordResult: a non-nil error records a failure,
otherwise a success. -/
def CircuitBreaker.recordResult (cb : CircuitBreaker) (now : Int) (err : Option GoError) : CircuitBreaker :=
  match err with
  | some _ => cb.onFailure now
  | none => cb.onSuccess now

/-- The distinct error with which CircuitBreaker.Execute rejects an
unadmitted call (`errors.New` in the source, so not an `*HTTPError`). -/
def circuitOpenError : GoError :=
  GoError.simple "circuit breaker is open: request rejected"

/-- CircuitBreaker.Execute: if the admission check fails, return the
circuit-open error without calling `fn`; otherwise run `fn` and record its
result. `nowCheck` and `nowRecord` are the instants of the admission check
and of the result recording; the third component reports whether `fn` was
invoked. -/
def CircuitBreaker.Execute (cb : CircuitBreaker) (nowCheck nowRecord : Int)
    (fn : Unit → SendRes) : SendRes × CircuitBreaker × Bool :=
  let c := cb.canExecute nowCheck
  if c.1 then
    let r := fn ()
    (r, c.2.recordResult nowRecord r.2, true)
  else
    ((none, some circuitOpenError), c.2, false)

/-- Applies `n` consecutive CircuitBreaker.onFailure recordings at instant
`now`. -/
def CircuitBreaker.recordFailures (cb : CircuitBreaker) (now : Int) : Nat → CircuitBreaker
  | 0 => cb
  | n + 1 => (cb.recordFailures now n).onFailure now

/-- resiliency.RateLimiter: a token bucket. `rate` and `tokens` are floats
(modelled as `Rat`); the refill instant is in seconds (also `Rat`, since
the Go code works with `elapsed.Seconds()`). -/
structure RateLimiter where
  rate : Rat
  burst : Int
  tokens : Rat
  lastRefillTime : Rat
deriving DecidableEq, Repr

/-- resiliency.NewRateLimiter at creation instant `now`: starts full. -/
def NewRateLimiter (rate : Rat) (burst : Int) (now : Rat) : RateLimiter :=
  { rate := rate, burst := burst, tokens := (burst : Rat), lastRefillTime := now }

/-- RateLimiter.refill at instant `now`: add `elapsed × rate` tokens,
capped at `burst`, and stamp the refill instant. -/
def RateLimiter.refill (rl : RateLimiter) (now : Rat) : RateLimiter :=
  let elapsed := now - rl.lastRefillTime
  let tokensToAdd := elapsed * rl.rate
  let t := rl.tokens + tokensToAdd
  let t2 := if t > (rl.burst : Rat) then (rl.burst : Rat) else t
  { rl with tokens := t2, lastRefillTime := now }

/-- RateLimiter.Allow at instant `now`: refill, then consume one token and
admit if at least one token is available, else deny. Returns the decision
and the updated limiter. -/
def RateLimiter.Allow (rl : RateLimiter) (now : Rat) : Bool × RateLimiter :=
  let rl1 := rl.refill now
  if rl1.tokens ≥ 1 then (true, { rl1 with tokens := rl1.tokens - 1 })
  else (false, rl1)

/-- resiliency.Bulkhead: `semCap` is the capacity of the channel-based
semaphore, `semLen` the number of currently held slots, `activeCount` the
atomic counter of active requests. -/
structure Bulkhead where
  semCap : Int
  semLen : Int
  maxConcurrency : Int
  activeCount : Int
deriving DecidableEq, Repr

/-- resiliency.NewBulkhead: a non-positive `maxConcurrency` is silently
replaced by the default 10; the semaphore is created with that capacity. -/
def NewBulkhead (maxConcurrency : Int) : Bulkhead :=
  let m := if maxConcurrency ≤ 0 then 10 else maxConcurrency
  { semCap := m, semLen := 0, maxConcurrency := m, activeCount := 0 }

/-- The error with which Bulkhead.Execute rejects a call when no slot is
available. -/
def bulkheadCapacityError : GoError :=
  GoError.simple "bulkhead: maximum concurrency reached, request rejected"

/-- Outcome of one Bulkhead.Execute call: the returned result, whether the
wrapped function was invoked, the value of `activeCount` while it ran (if
it ran), and the bulkhead state after the call (the deferred release has
run). -/
structure BulkheadExec where
  result : SendRes
  invoked : Bool
  activeDuring : Int
  after : Bulkhead
deriving DecidableEq, Repr

/-- Bulkhead.Execute, following Go `select` semantics: with a slot free the
semaphore send is ready (when the context is also done the scheduler picks
either ready case, modelled by `pickCtx`); with no slot free and the
context done, the context case is the only ready one; with no slot free and
the context live, the `default` case rejects immediately. On acquisition
the slot is held while `fn` runs and released by the deferred block on
every exit path. -/
def Bulkhead.Execute (b : Bulkhead) (ctxDone pickCtx : Bool) (fn : Unit → SendRes) : BulkheadExec :=
  if b.semLen < b.semCap then
    if ctxDone && pickCtx then
      { result := (none, some GoError.ctxCanceled), invoked := false
        activeDuring := b.activeCount, after := b }
    else
      { result := fn (), invoked := true
        activeDuring := b.activeCount + 1, after := b }
  else if ctxDone then
    { result := (none, some GoError.ctxCanceled), invoked := false
      activeDuring := b.activeCount, after := b }
  else
    { result := (none, some bulkheadCapacityError), invoked := false
      activeDuring := b.activeCount, after := b }

/-- What `http.Client.Do` produced for one attempt: a transport-level
failure with a classified cause, or a response with a status code. -/
inductive DoResult where
  | doFail (cause : ErrCause)
  | doOk (statusCode : Int)
deriving DecidableEq, Repr

/-- client.HTTPClient.Send (nil-request guards elided, `Do` outcome passed
in): a transport failure becomes an `*HTTPError` with no response and
status code 0; a status of 400 or more returns the response together with
an `*HTTPError` that carries that response and status; otherwise the
response alone. The Go messages interpolate the method and status; the
constant templates stand for them here. -/
def HTTPClientSend (dr : DoResult) : SendRes :=
  match dr with
  | DoResult.doFail c =>
    (none, some (GoError.httpErr
      { statusCode := 0, message := "request failed", cause := some c, response := none }))
  | DoResult.doOk sc =>
    let resp : Resp := { statusCode := sc }
    if sc ≥ 400 then
      (some resp, some (GoError.httpErr
        { statusCode := sc, message := "request returned error status"
          cause := none, response := some resp }))
    else
      (some resp, none)

/-- The error returned when the context is found done at the top of the
retry loop (an `*HTTPError` wrapping `ctx.Err()`, which is not a
`net.Error`). -/
def cancelledDuringRetryError : GoError :=
  GoError.httpErr
    { statusCode := 0, message := "request cancelled during retry"
      cause := some ErrCause.nonNet, response := none }

/-- The error returned when the context is cancelled during the backoff
sleep between attempts. -/
def cancelledDuringBackoffError : GoError :=
  GoError.httpErr
    { statusCode := 0, message := "request cancelled during retry backoff"
      cause := some ErrCause.nonNet, response := none }

/-- Loop body of middleware.RetryDecorator.Send, structurally recursive on
the remaining loop iterations (`fuel` starts at `maxAttempts` and the loop
condition `attempt < maxAttempts` holds exactly while fuel remains, since
`attempt` starts at 0 and both move in lockstep). The wrapped client is a
state-passing step function `inner` over an arbitrary state `σ` (the Go
decorator hides that state behind interior mutation); `ctxB attempt` tells
whether the context is done at the top of iteration `attempt`, and
`ctxS attempt` whether it is cancelled during that iteration's backoff
sleep. -/
def RetryDecorator.SendS {σ : Type} (rp : RetryPolicy) (inner : σ → SendRes × σ)
    (ctxB ctxS : Nat → Bool) : Nat → Nat → σ → Option GoError → SendRes × σ
  | 0, _, s, lastErr => ((none, lastErr), s)
  | fuel + 1, attempt, s, lastErr =>
    if ctxB attempt then ((none, some cancelledDuringRetryError), s)
    else
      let rs := inner s
      match rs.1.2 with
      | none => ((rs.1.1, none), rs.2)
      | some e =>
        if rp.ShouldRetry e (attempt : Int) then
          if ctxS attempt then ((none, some cancelledDuringBackoffError), rs.2)
          else RetryDecorator.SendS rp inner ctxB ctxS fuel (attempt + 1) rs.2 (some e)
        else ((none, some e), rs.2)

/-- middleware.RetryDecorator.Send: run the retry loop from attempt 0 with
no recorded error. -/
def RetryDecorator.Send {σ : Type} (rp : RetryPolicy) (inner : σ → SendRes × σ)
    (ctxB ctxS : Nat → Bool) (s0 : σ) : SendRes × σ :=
  RetryDecorator.SendS rp inner ctxB ctxS rp.maxAttempts.toNat 0 s0 none

/-- A stateless wrapped client as a step function: the state is the count
of invocations so far, and call number `n` returns `inner n`. -/
def innerStepOf (inner : Nat → SendRes) : Nat → SendRes × Nat :=
  fun n => (inner n, n + 1)

/-- middleware.CircuitBreakerDecorator.Send as a step function: the state
is the breaker, the index of the next decorator call (used to look up the
instants of its admission check and result recording in `tC`/`tR`), and
the count of invocations of the wrapped transport; call `k` runs
CircuitBreaker.Execute around the wrapped transport. -/
def cbDecoratorStep (innerRes : Nat → SendRes) (tC tR : Nat → Int) :
    CircuitBreaker × Nat × Nat → SendRes × (CircuitBreaker × Nat × Nat) :=
  fun s =>
    let cb := s.1
    let k := s.2.1
    let calls := s.2.2
    let r := cb.Execute (tC k) (tR k) (fun _ => innerRes calls)
    (r.1, (r.2.1, k + 1, if r.2.2 then calls + 1 else calls))

/-- middleware.RateLimiterDecorator.Send: a context already done is
reported as a cancellation `*HTTPError`; a failed `Wait` (whose outcome
`waitErr` depends on timing) is wrapped as a rate-limit `*HTTPError`;
otherwise the wrapped client's result is returned unchanged. -/
def RateLimiterDecorator.Send (ctxDone : Bool) (waitErr : Option GoError)
    (inner : Unit → SendRes) : SendRes :=
  if ctxDone then
    (none, some (GoError.httpErr
      { statusCode := 0, message := "request cancelled before rate limiting"
        cause := some ErrCause.nonNet, response := none }))
  else
    match waitErr with
    | some _ =>
      (none, some (GoError.httpErr
        { statusCode := 0, message := "rate limit exceeded"
          cause := some ErrCause.nonNet, response := none }))
    | none => inner ()

/-- middleware.LoggingDecorator.Send: logs and returns the wrapped result
unchanged. -/
def LoggingDecorator.Send (inner : Unit → SendRes) : SendRes :=
  inner ()

/-- middleware.MetricsDecorator.Send: records metrics and returns the
wrapped result unchanged. -/
def MetricsDecorator.Send (inner : Unit → SendRes) : SendRes :=
  inner ()

/-- middleware.BulkheadDecorator.Send: runs the wrapped client under
Bulkhead.Execute. -/
def BulkheadDecorator.Send (b : Bulkhead) (ctxDone pickCtx : Bool)
    (inner : Unit → SendRes) : BulkheadExec :=
  b.Execute ctxDone pickCtx inner

/-- A 5xx status code makes an `HTTPError` temporary, whatever its
underlying cause. -/
theorem HTTPError.isTemporary_of_5xx (e : HTTPError)
    (h5 : 500 ≤ e.statusCode) (h6 : e.statusCode < 600) :
    e.IsTemporary = true := by
  unfold HTTPError.IsTemporary
  rcases h : e.cause with _ | c
  · simp; omega
  · split_ifs with ht
    · rfl
    · simp; omega

/-- ShouldRetry ignores the exact attempt number while it is below
`maxAttempts`. -/
theorem RetryPolicy.shouldRetry_attempt_irrel (rp : RetryPolicy) (err : GoError)
    (a b : Int) (ha : a < rp.maxAttempts) (hb : b < rp.maxAttempts) :
    rp.ShouldRetry err a = rp.ShouldRetry err b := by
  unfold RetryPolicy.ShouldRetry
  rw [if_neg (not_le.mpr ha), if_neg (not_le.mpr hb)]

/-- C4 (confirmed): for every retry policy and every attempt below
`maxAttempts`, `GetDelay (attempt+1)` is `initialDelay × multiplier^attempt`
(truncated to an integral duration, as Go's `time.Duration` conversion
does) capped at `maxDelay`, and `GetDelay 0` is 0. -/
theorem getDelay_exponential_backoff (rp : RetryPolicy) (attempt : Int)
    (h0 : 0 ≤ attempt) (hlt : attempt < rp.maxAttempts) :
    rp.GetDelay (attempt + 1)
      = min rp.maxDelay (ratTrunc ((rp.initialDelay : Rat) * ratPow rp.multiplier attempt))
    ∧ rp.GetDelay 0 = 0 := by
  constructor
  · have hne : attempt + 1 ≠ 0 := by omega
    have hexp : attempt + 1 - 1 = attempt := by ring
    unfold RetryPolicy.GetDelay
    rw [if_neg hne, hexp]
    dsimp only
    split_ifs with h <;> omega
  · unfold RetryPolicy.GetDelay
    rw [if_pos rfl]

/-- Witness for C4 at the default policy with 3 attempts and attempt 1. -/
theorem getDelay_exponential_backoff_witness :
    (NewRetryPolicy 3).GetDelay 2
      = min (NewRetryPolicy 3).maxDelay
          (ratTrunc (((NewRetryPolicy 3).initialDelay : Rat)
            * ratPow (NewRetryPolicy 3).multiplier 1))
    ∧ (NewRetryPolicy 3).GetDelay 0 = 0 :=
  getDelay_exponential_backoff (NewRetryPolicy 3) 1 (by decide) (by decide)

/-- A transport-level connection failure that is not a timeout: a
`net.Error` cause with `Timeout()` false and no HTTP status. -/
def connFailErr : HTTPError :=
  { statusCode := 0, message := "GET request failed"
    cause := some ErrCause.netOther, response := none }

/-- C3 counterexample: `connFailErr` is classified as a network error and
the attempt count 0 is below `maxAttempts = 3`, yet ShouldRetry returns
false — so non-timeout network errors are not always retryable, contrary
to the claim. -/
theorem network_error_not_retried_cex :
    connFailErr.IsNetworkError = true
    ∧ connFailErr.IsTimeout = false
    ∧ (0 : Int) < (NewRetryPolicy 3).maxAttempts
    ∧ (NewRetryPolicy 3).ShouldRetry (GoError.httpErr connFailErr) 0 = false := by
  decide

/-- C3 amended (proved): below `maxAttempts`, timeout errors are always
retried; a non-timeout network error (status code 0, as the HTTP client
constructs them, with 0 not in the retryable list) is not retried; and a
4xx error with no underlying cause is retried exactly when its status code
is in the retryable list. -/
theorem shouldRetry_classification (rp : RetryPolicy) (attempt : Int) (e : HTTPError)
    (hlt : attempt < rp.maxAttempts) :
    (e.IsTimeout = true → rp.ShouldRetry (GoError.httpErr e) attempt = true)
    ∧ (e.cause = some ErrCause.netOther → e.statusCode = 0 →
        rp.retryableErrors.contains 0 = false →
        rp.ShouldRetry (GoError.httpErr e) attempt = false)
    ∧ (e.cause = none → 400 ≤ e.statusCode → e.statusCode < 500 →
        (rp.ShouldRetry (GoError.httpErr e) attempt = true
          ↔ rp.retryableErrors.contains e.statusCode = true)) := by
  unfold RetryPolicy.ShouldRetry
  rw [if_neg (not_le.mpr hlt)]
  dsimp only
  refine ⟨fun ht => ?_, fun hc hsc hlist => ?_, fun hc h4a h4b => ?_⟩
  · simp [ht]
  · have ht : e.IsTimeout = false := by simp [HTTPError.IsTimeout, hc]
    have htemp : e.IsTemporary = false := by
      unfold HTTPError.IsTemporary
      rw [hc]
      simp [ht, hsc]
    have hcl : e.IsClientError = false := by
      simp [HTTPError.IsClientError, hsc]
    have hsrv : e.IsServerError = false := by
      simp [HTTPError.IsServerError, hsc]
    have hcond1 : (e.IsTimeout || e.IsTemporary) = false := by rw [ht, htemp]; rfl
    rw [hcond1, if_neg (by simp), hsc, hlist, if_neg (by simp),
      hcl, if_neg (by simp), hsrv, if_neg (by simp)]
  · have ht : e.IsTimeout = false := by simp [HTTPError.IsTimeout, hc]
    have htemp : e.IsTemporary = false := by
      unfold HTTPError.IsTemporary
      rw [hc]
      simp
      omega
    have hce : e.IsClientError = true := by
      simp [HTTPError.IsClientError]
      omega
    have hcond1 : (e.IsTimeout || e.IsTemporary) = false := by rw [ht, htemp]; rfl
    rw [hcond1, if_neg (by simp)]
    by_cases hcont : rp.retryableErrors.contains e.statusCode = true
    · rw [if_pos hcont]
      exact iff_of_true rfl hcont
    · rw [if_neg hcont, hce, if_pos rfl]
      exact iff_of_false (by simp) hcont

/-- Witness for C3's amended classification at a plain 404 client error
under the default policy. -/
theorem shouldRetry_classification_witness :
    (((⟨404, "m", none, none⟩ : HTTPError).IsTimeout = true →
        (NewRetryPolicy 3).ShouldRetry (GoError.httpErr ⟨404, "m", none, none⟩) 0 = true)
    ∧ ((⟨404, "m", none, none⟩ : HTTPError).cause = some ErrCause.netOther →
        (⟨404, "m", none, none⟩ : HTTPError).statusCode = 0 →
        (NewRetryPolicy 3).retryableErrors.contains 0 = false →
        (NewRetryPolicy 3).ShouldRetry (GoError.httpErr ⟨404, "m", none, none⟩) 0 = false)
    ∧ ((⟨404, "m", none, none⟩ : HTTPError).cause = none →
        400 ≤ (⟨404, "m", none, none⟩ : HTTPError).statusCode →
        (⟨404, "m", none, none⟩ : HTTPError).statusCode < 500 →
        ((NewRetryPolicy 3).ShouldRetry (GoError.httpErr ⟨404, "m", none, none⟩) 0 = true
          ↔ (NewRetryPolicy 3).retryableErrors.contains
              (⟨404, "m", none, none⟩ : HTTPError).statusCode = true))) :=
  shouldRetry_classification (NewRetryPolicy 3) 0 ⟨404, "m", none, none⟩ (by decide)

/-- C6 (confirmed): while the breaker is open, an admission check at or
before `openTimeout` after the last failure is rejected and leaves the
breaker unchanged; a check strictly after `openTimeout` admits, moves the
breaker to half-open, and resets `successCount`. -/
theorem open_breaker_admission (cb : CircuitBreaker) (now : Int)
    (h : cb.state = CircuitState.opened) :
    (now - cb.lastFailureTime ≤ cb.timeout → cb.canExecute now = (false, cb))
    ∧ (cb.timeout < now - cb.lastFailureTime →
        (cb.canExecute now).1 = true
        ∧ (cb.canExecute now).2.state = CircuitState.halfOpen
        ∧ (cb.canExecute now).2.successCount = 0) := by
  unfold CircuitBreaker.canExecute
  rw [h]
  constructor
  · intro hle
    rw [if_neg (by omega)]
  · intro hlt
    rw [if_pos (by omega)]
    exact ⟨rfl, rfl, rfl⟩

/-- Witness for C6 at an open breaker with a 5ns timeout, checked 3ns
after the failure. -/
theorem open_breaker_admission_witness :
    (3 - ({ NewCircuitBreaker 2 5 with
        state := CircuitState.opened } : CircuitBreaker).lastFailureTime
      ≤ ({ NewCircuitBreaker 2 5 with state := CircuitState.opened } : CircuitBreaker).timeout →
      ({ NewCircuitBreaker 2 5 with state := CircuitState.opened } : CircuitBreaker).canExecute 3
        = (false, { NewCircuitBreaker 2 5 with state := CircuitState.opened }))
    ∧ (({ NewCircuitBreaker 2 5 with state := CircuitState.opened } : CircuitBreaker).timeout
        < 3 - ({ NewCircuitBreaker 2 5 with
            state := CircuitState.opened } : CircuitBreaker).lastFailureTime →
        (({ NewCircuitBreaker 2 5 with
            state := CircuitState.opened } : CircuitBreaker).canExecute 3).1 = true
        ∧ (({ NewCircuitBreaker 2 5 with
            state := CircuitState.opened } : CircuitBreaker).canExecute 3).2.state
            = CircuitState.halfOpen
        ∧ (({ NewCircuitBreaker 2 5 with
            state := CircuitState.opened } : CircuitBreaker).canExecute 3).2.successCount = 0) :=
  open_breaker_admission { NewCircuitBreaker 2 5 with state := CircuitState.opened } 3 rfl

/-- C10 (confirmed): a non-positive `maxConcurrency` passed to NewBulkhead
is silently replaced by the default 10, for both the recorded
`maxConcurrency` and the semaphore capacity. -/
theorem newBulkhead_default_concurrency (m : Int) (hm : m ≤ 0) :
    (NewBulkhead m).maxConcurrency = 10
    ∧ (NewBulkhead m).semCap = 10
    ∧ (NewBulkhead m).semLen = 0 := by
  unfold NewBulkhead
  rw [if_pos hm]
  exact ⟨rfl, rfl, rfl⟩

/-- Witness for C10 at maxConcurrency = -5. -/
theorem newBulkhead_default_concurrency_witness :
    (NewBulkhead (-5)).maxConcurrency = 10
    ∧ (NewBulkhead (-5)).semCap = 10
    ∧ (NewBulkhead (-5)).semLen = 0 :=
  newBulkhead_default_concurrency (-5) (by decide)

/-- One onFailure step from a closed breaker, written out: open (resetting
the count) when the incremented count reaches the threshold, otherwise stay
closed with the incremented count; either way stamp `lastFailureTime`. -/
theorem CircuitBreaker.onFailure_closed (cb : CircuitBreaker) (now : Int)
    (h : cb.state = CircuitState.closed) :
    cb.onFailure now =
      if cb.failureCount + 1 ≥ cb.failureThreshold then
        { cb with state := CircuitState.opened, failureCount := 0, lastFailureTime := now }
      else
        { cb with failureCount := cb.failureCount + 1, lastFailureTime := now } := by
  unfold CircuitBreaker.onFailure
  dsimp only
  rw [h]

/-- One onSuccess step from a closed breaker: stay closed and reset the
failure count. -/
theorem CircuitBreaker.onSuccess_closed (cb : CircuitBreaker) (now : Int)
    (h : cb.state = CircuitState.closed) :
    cb.onSuccess now = { cb with failureCount := 0, lastSuccessTime := now } := by
  unfold CircuitBreaker.onSuccess
  dsimp only
  rw [h]

/-- While fewer than `failureThreshold` consecutive failures have been
recorded from a fresh closed breaker, the breaker stays closed with
`failureCount` equal to the number of failures (and an unchanged
threshold). -/
theorem recordFailures_below_threshold (cb : CircuitBreaker) (now : Int) (n : Nat)
    (hst : cb.state = CircuitState.closed) (hfc : cb.failureCount = 0)
    (hn : (n : Int) < cb.failureThreshold) :
    (cb.recordFailures now n).state = CircuitState.closed
    ∧ (cb.recordFailures now n).failureCount = (n : Int)
    ∧ (cb.recordFailures now n).failureThreshold = cb.failureThreshold := by
  induction n with
  | zero => exact ⟨hst, by simpa using hfc, rfl⟩
  | succ m ih =>
    have hm : (m : Int) < cb.failureThreshold := by
      push_cast at hn ⊢
      omega
    obtain ⟨h1, h2, h3⟩ := ih hm
    have hstep := CircuitBreaker.onFailure_closed (cb.recordFailures now m) now h1
    have hnot : ¬ ((cb.recordFailures now m).failureCount + 1
        ≥ (cb.recordFailures now m).failureThreshold) := by
      rw [h2, h3]
      push_cast at hn ⊢
      omega
    rw [CircuitBreaker.recordFailures, hstep, if_neg hnot]
    refine ⟨h1, ?_, h3⟩
    show (cb.recordFailures now m).failureCount + 1 = ((m + 1 : Nat) : Int)
    rw [h2]
    push_cast
    ring

/-- C5 (confirmed): from a fresh closed breaker, any number of consecutive
failures strictly below `failureThreshold` leaves the breaker closed with
`failureCount` equal to that number (so the breaker never opens early);
the `failureThreshold`-th consecutive failure opens it and resets
`failureCount` to 0; and a success recorded while closed keeps the breaker
closed and resets `failureCount` to 0. -/
theorem breaker_opens_at_threshold (cb cb2 : CircuitBreaker) (now t : Int) (n : Nat)
    (hst : cb.state = CircuitState.closed) (hfc : cb.failureCount = 0)
    (hth : 1 ≤ cb.failureThreshold) (hn : (n : Int) < cb.failureThreshold)
    (hst2 : cb2.state = CircuitState.closed) :
    ((cb.recordFailures now n).state = CircuitState.closed
      ∧ (cb.recordFailures now n).failureCount = (n : Int))
    ∧ ((cb.recordFailures now cb.failureThreshold.toNat).state = CircuitState.opened
      ∧ (cb.recordFailures now cb.failureThreshold.toNat).failureCount = 0)
    ∧ ((cb2.onSuccess t).state = CircuitState.closed
      ∧ (cb2.onSuccess t).failureCount = 0) := by
  obtain ⟨h1, h2, -⟩ := recordFailures_below_threshold cb now n hst hfc hn
  refine ⟨⟨h1, h2⟩, ?_, ?_⟩
  · set k := cb.failureThreshold.toNat - 1 with hkdef
    have hk : cb.failureThreshold.toNat = k + 1 := by omega
    have hki : (k : Int) < cb.failureThreshold := by omega
    obtain ⟨g1, g2, g3⟩ := recordFailures_below_threshold cb now k hst hfc hki
    have hstep := CircuitBreaker.onFailure_closed (cb.recordFailures now k) now g1
    have hge : (cb.recordFailures now k).failureCount + 1
        ≥ (cb.recordFailures now k).failureThreshold := by
      rw [g2, g3]
      omega
    rw [hk, CircuitBreaker.recordFailures, hstep, if_pos hge]
    exact ⟨rfl, rfl⟩
  · rw [CircuitBreaker.onSuccess_closed cb2 t hst2]
    exact ⟨hst2, rfl⟩

/-- Witness for C5: fresh breaker with threshold 2; one failure keeps it
closed, the second opens it, and a success while closed resets. -/
theorem breaker_opens_at_threshold_witness :
    (((NewCircuitBreaker 2 5).recordFailures 7 1).state = CircuitState.closed
      ∧ ((NewCircuitBreaker 2 5).recordFailures 7 1).failureCount = 1)
    ∧ (((NewCircuitBreaker 2 5).recordFailures 7
          (NewCircuitBreaker 2 5).failureThreshold.toNat).state = CircuitState.opened
      ∧ ((NewCircuitBreaker 2 5).recordFailures 7
          (NewCircuitBreaker 2 5).failureThreshold.toNat).failureCount = 0)
    ∧ (((NewCircuitBreaker 2 5).onSuccess 9).state = CircuitState.closed
      ∧ ((NewCircuitBreaker 2 5).onSuccess 9).failureCount = 0) :=
  breaker_opens_at_threshold (NewCircuitBreaker 2 5) (NewCircuitBreaker 2 5) 7 9 1
    rfl rfl (by decide) (by decide) rfl

/-- The refill step computes exactly the capped token count. -/
theorem RateLimiter.refill_tokens_eq (rl : RateLimiter) (now : Rat) :
    (rl.refill now).tokens
      = min ((rl.burst : Rat)) (rl.tokens + (now - rl.lastRefillTime) * rl.rate) := by
  unfold RateLimiter.refill
  dsimp only
  split_ifs with h
  · exact (min_eq_left h.le).symm
  · exact (min_eq_right (not_lt.mp h)).symm

/-- C7 (confirmed): Allow refills by elapsed×rate capped at burst, admits
and consumes exactly one token when at least one is available, consumes
nothing when denying, and keeps the token count within [0, burst]
(assuming a nonnegative rate, a monotone clock, and a token count that
starts within range — as it does at construction, where tokens = burst). -/
theorem rateLimiter_tokens_in_range (rl : RateLimiter) (now : Rat)
    (h1 : 0 ≤ rl.tokens) (h2 : rl.tokens ≤ (rl.burst : Rat))
    (h3 : 0 ≤ rl.rate) (h4 : rl.lastRefillTime ≤ now) :
    ((rl.refill now).tokens
      = min ((rl.burst : Rat)) (rl.tokens + (now - rl.lastRefillTime) * rl.rate))
    ∧ ((rl.Allow now).1 = true ↔ 1 ≤ (rl.refill now).tokens)
    ∧ ((rl.Allow now).1 = true →
        (rl.Allow now).2.tokens = (rl.refill now).tokens - 1)
    ∧ ((rl.Allow now).1 = false →
        (rl.Allow now).2.tokens = (rl.refill now).tokens)
    ∧ 0 ≤ (rl.Allow now).2.tokens
    ∧ (rl.Allow now).2.tokens ≤ ((rl.Allow now).2.burst : Rat)
    ∧ (rl.Allow now).2.burst = rl.burst := by
  have hmin := RateLimiter.refill_tokens_eq rl now
  have hb0 : (0 : Rat) ≤ (rl.burst : Rat) := le_trans h1 h2
  have helap : 0 ≤ (now - rl.lastRefillTime) * rl.rate :=
    mul_nonneg (by linarith) h3
  have ht0 : 0 ≤ (rl.refill now).tokens := by
    rw [hmin]
    exact le_min hb0 (by linarith)
  have htb : (rl.refill now).tokens ≤ (rl.burst : Rat) := by
    rw [hmin]
    exact min_le_left _ _
  by_cases hone : (rl.refill now).tokens ≥ 1
  · have hA : rl.Allow now
        = (true, { rl.refill now with tokens := (rl.refill now).tokens - 1 }) := by
      unfold RateLimiter.Allow
      rw [if_pos hone]
    rw [hA]
    refine ⟨hmin, iff_of_true rfl hone, fun _ => rfl, fun hfalse => absurd hfalse (by simp),
      by dsimp only; linarith, ?_, rfl⟩
    dsimp only
    have : (rl.refill now).burst = rl.burst := rfl
    rw [this]
    linarith
  · have hA : rl.Allow now = (false, rl.refill now) := by
      unfold RateLimiter.Allow
      rw [if_neg hone]
    rw [hA]
    refine ⟨hmin, iff_of_false (by simp) hone, fun htrue => absurd htrue (by simp),
      fun _ => rfl, ht0, ?_, rfl⟩
    exact htb

/-- Witness for C7: a limiter with rate 0, burst 1, no tokens, checked at
its refill instant. -/
theorem rateLimiter_tokens_in_range_witness :
    ((({ rate := 0, burst := 1, tokens := 0, lastRefillTime := 0 } : RateLimiter).refill 0).tokens
      = min (((1 : Int) : Rat)) (0 + (0 - 0) * 0))
    ∧ ((({ rate := 0, burst := 1, tokens := 0, lastRefillTime := 0 } : RateLimiter).Allow 0).1 = true
        ↔ 1 ≤ (({ rate := 0, burst := 1, tokens := 0, lastRefillTime := 0 } : RateLimiter).refill 0).tokens)
    ∧ ((({ rate := 0, burst := 1, tokens := 0, lastRefillTime := 0 } : RateLimiter).Allow 0).1 = true →
        (({ rate := 0, burst := 1, tokens := 0, lastRefillTime := 0 } : RateLimiter).Allow 0).2.tokens
          = (({ rate := 0, burst := 1, tokens := 0, lastRefillTime := 0 } : RateLimiter).refill 0).tokens - 1)
    ∧ ((({ rate := 0, burst := 1, tokens := 0, lastRefillTime := 0 } : RateLimiter).Allow 0).1 = false →
        (({ rate := 0, burst := 1, tokens := 0, lastRefillTime := 0 } : RateLimiter).Allow 0).2.tokens
          = (({ rate := 0, burst := 1, tokens := 0, lastRefillTime := 0 } : RateLimiter).refill 0).tokens)
    ∧ 0 ≤ (({ rate := 0, burst := 1, tokens := 0, lastRefillTime := 0 } : RateLimiter).Allow 0).2.tokens
    ∧ (({ rate := 0, burst := 1, tokens := 0, lastRefillTime := 0 } : RateLimiter).Allow 0).2.tokens
        ≤ ((({ rate := 0, burst := 1, tokens := 0, lastRefillTime := 0 } : RateLimiter).Allow 0).2.burst : Rat)
    ∧ (({ rate := 0, burst := 1, tokens := 0, lastRefillTime := 0 } : RateLimiter).Allow 0).2.burst = 1 :=
  rateLimiter_tokens_in_range { rate := 0, burst := 1, tokens := 0, lastRefillTime := 0 } 0
    le_rfl (by simp) le_rfl le_rfl

/-- C8 (confirmed): with every slot occupied, Execute rejects immediately
with the capacity error (no queueing, wrapped function not invoked, state
unchanged) when the context is live, and returns the context's
cancellation error when the context is already done; with a free slot and
a live context it runs the function with the slot held and releases the
slot on the way out. -/
theorem bulkhead_rejects_when_full (b bfree : Bulkhead) (pickA pickB : Bool)
    (fnA fnB : Unit → SendRes)
    (hfull : b.semCap ≤ b.semLen) (hfree : bfree.semLen < bfree.semCap) :
    (b.Execute false pickA fnA
      = { result := (none, some bulkheadCapacityError), invoked := false
          activeDuring := b.activeCount, after := b })
    ∧ ((b.Execute true pickA fnA).result = (none, some GoError.ctxCanceled)
        ∧ (b.Execute true pickA fnA).invoked = false
        ∧ (b.Execute true pickA fnA).after = b)
    ∧ ((bfree.Execute false pickB fnB).invoked = true
        ∧ (bfree.Execute false pickB fnB).result = fnB ()
        ∧ (bfree.Execute false pickB fnB).activeDuring = bfree.activeCount + 1
        ∧ (bfree.Execute false pickB fnB).after = bfree) := by
  have hnot : ¬ (b.semLen < b.semCap) := by omega
  refine ⟨?_, ?_, ?_⟩ <;>
    simp [Bulkhead.Execute, hnot, hfree]

/-- Witness for C8: a full one-slot bulkhead and a two-slot bulkhead with
one slot taken. -/
theorem bulkhead_rejects_when_full_witness :
    (Bulkhead.Execute ⟨1, 1, 1, 1⟩ false false (fun _ => (none, none))
      = { result := (none, some bulkheadCapacityError), invoked := false
          activeDuring := (⟨1, 1, 1, 1⟩ : Bulkhead).activeCount, after := ⟨1, 1, 1, 1⟩ })
    ∧ ((Bulkhead.Execute ⟨1, 1, 1, 1⟩ true false (fun _ => (none, none))).result
          = (none, some GoError.ctxCanceled)
        ∧ (Bulkhead.Execute ⟨1, 1, 1, 1⟩ true false (fun _ => (none, none))).invoked = false
        ∧ (Bulkhead.Execute ⟨1, 1, 1, 1⟩ true false (fun _ => (none, none))).after = ⟨1, 1, 1, 1⟩)
    ∧ ((Bulkhead.Execute ⟨2, 1, 2, 1⟩ false false (fun _ => (none, none))).invoked = true
        ∧ (Bulkhead.Execute ⟨2, 1, 2, 1⟩ false false (fun _ => (none, none))).result
            = (fun _ => ((none, none) : SendRes)) ()
        ∧ (Bulkhead.Execute ⟨2, 1, 2, 1⟩ false false (fun _ => (none, none))).activeDuring
            = (⟨2, 1, 2, 1⟩ : Bulkhead).activeCount + 1
        ∧ (Bulkhead.Execute ⟨2, 1, 2, 1⟩ false false (fun _ => (none, none))).after = ⟨2, 1, 2, 1⟩) :=
  bulkhead_rejects_when_full ⟨1, 1, 1, 1⟩ ⟨2, 1, 2, 1⟩ false false
    (fun _ => (none, none)) (fun _ => (none, none)) (by decide) (by decide)

/-- Scenario E of the specification: retry with three attempts over a
circuit breaker with failure threshold 2, over a given inner transport,
the attempts' admission checks and result recordings happening at the
instants `tC`/`tR`. -/
def scenarioE (timeout : Int) (innerRes : Nat → SendRes) (tC tR : Nat → Int) :
    SendRes × (CircuitBreaker × Nat × Nat) :=
  RetryDecorator.Send (NewRetryPolicy 3) (cbDecoratorStep innerRes tC tR)
    (fun _ => false) (fun _ => false) (NewCircuitBreaker 2 timeout, 0, 0)

/-- Evaluation of Scenario E against a transport failing every call with a
500, while the third attempt falls inside the open-state timeout window:
two transport invocations, then the breaker opens and the third attempt is
rejected with the circuit-open error. -/
theorem scenarioE_eq (timeout : Int) (tC tR : Nat → Int)
    (hcond : ¬ (tC 2 - tR 1 > timeout)) :
    scenarioE timeout (fun _ => HTTPClientSend (DoResult.doOk 500)) tC tR
      = ((none, some circuitOpenError),
         ({ state := CircuitState.opened, failureCount := 0, successCount := 0,
            lastFailureTime := tR 1, lastSuccessTime := 0, failureThreshold := 2,
            successThreshold := 2, timeout := timeout }, 3, 2)) := by
  simp only [scenarioE, RetryDecorator.Send]
  norm_num [RetryDecorator.SendS, cbDecoratorStep, CircuitBreaker.Execute,
    CircuitBreaker.canExecute, CircuitBreaker.recordResult, CircuitBreaker.onFailure,
    HTTPClientSend, RetryPolicy.ShouldRetry, HTTPError.IsTimeout, HTTPError.IsTemporary,
    NewCircuitBreaker, NewRetryPolicy, circuitOpenError, if_neg hcond]

/-- C1 (confirmed): the circuit-open rejection error is never retried —
ShouldRetry returns false on it for every policy and attempt count, and a
rejected CircuitBreaker.Execute returns exactly that error without
invoking the call; consequently in retry(3) over circuitBreaker(2) over an
always-failing (500) transport, with the third attempt inside the
open-state window, the transport is invoked only twice and the composed
Send returns the circuit-open error. -/
theorem circuit_open_not_retried (rpX : RetryPolicy) (attemptX : Int)
    (cbX : CircuitBreaker) (t1 t2 : Int) (fnX : Unit → SendRes)
    (timeout : Int) (tC tR : Nat → Int)
    (hrej : (cbX.canExecute t1).1 = false)
    (hT : tC 2 - tR 1 ≤ timeout) :
    rpX.ShouldRetry circuitOpenError attemptX = false
    ∧ (cbX.Execute t1 t2 fnX).1 = (none, some circuitOpenError)
    ∧ (cbX.Execute t1 t2 fnX).2.2 = false
    ∧ (scenarioE timeout (fun _ => HTTPClientSend (DoResult.doOk 500)) tC tR).1
        = (none, some circuitOpenError)
    ∧ (scenarioE timeout (fun _ => HTTPClientSend (DoResult.doOk 500)) tC tR).2.2.2 = 2
    ∧ (scenarioE timeout (fun _ => HTTPClientSend (DoResult.doOk 500)) tC tR).2.1.state
        = CircuitState.opened := by
  have hsc := scenarioE_eq timeout tC tR (by omega)
  refine ⟨?_, ?_, ?_, ?_, ?_, ?_⟩
  · unfold RetryPolicy.ShouldRetry circuitOpenError
    split_ifs <;> rfl
  · unfold CircuitBreaker.Execute
    dsimp only
    rw [hrej, if_neg (by simp)]
  · unfold CircuitBreaker.Execute
    dsimp only
    rw [hrej, if_neg (by simp)]
  · rw [hsc]
  · rw [hsc]
  · rw [hsc]

/-- Witness for C1: an open breaker checked inside its window, and
Scenario E with all events at instant 0 and a 1s window. -/
theorem circuit_open_not_retried_witness :
    (NewRetryPolicy 3).ShouldRetry circuitOpenError 2 = false
    ∧ (CircuitBreaker.Execute { NewCircuitBreaker 2 5 with state := CircuitState.opened }
        3 3 (fun _ => (none, none))).1 = (none, some circuitOpenError)
    ∧ (CircuitBreaker.Execute { NewCircuitBreaker 2 5 with state := CircuitState.opened }
        3 3 (fun _ => (none, none))).2.2 = false
    ∧ (scenarioE 1000000000 (fun _ => HTTPClientSend (DoResult.doOk 500))
        (fun _ => 0) (fun _ => 0)).1 = (none, some circuitOpenError)
    ∧ (scenarioE 1000000000 (fun _ => HTTPClientSend (DoResult.doOk 500))
        (fun _ => 0) (fun _ => 0)).2.2.2 = 2
    ∧ (scenarioE 1000000000 (fun _ => HTTPClientSend (DoResult.doOk 500))
        (fun _ => 0) (fun _ => 0)).2.1.state = CircuitState.opened :=
  circuit_open_not_retried (NewRetryPolicy 3) 2
    { NewCircuitBreaker 2 5 with state := CircuitState.opened } 3 3
    (fun _ => (none, none)) 1000000000 (fun _ => 0) (fun _ => 0)
    (by decide) (by decide)

/-- Below its maxAttempts cap, the default policy always retries a
500-status error. -/
theorem shouldRetry_500 (e : HTTPError) (a : Int)
    (ha : a < 3) (hsc : e.statusCode = 500) :
    (NewRetryPolicy 3).ShouldRetry (GoError.httpErr e) a = true := by
  unfold RetryPolicy.ShouldRetry NewRetryPolicy
  dsimp only
  rw [if_neg (not_le.mpr ha)]
  rw [HTTPError.isTemporary_of_5xx e (by omega) (by omega)]
  simp

/-- C2 (confirmed): with maxAttempts 3 and an inner transport answering
every call with a 500-classified server error, the retry decorator invokes
the inner transport exactly 3 times and returns the last of those server
errors (with a nil direct response, as the Go loop returns `nil, lastErr`). -/
theorem retry_exhausts_three_attempts (inner : Nat → SendRes)
    (hInner : ∀ i, ∃ e : HTTPError,
      (inner i).2 = some (GoError.httpErr e) ∧ e.statusCode = 500) :
    (RetryDecorator.Send (NewRetryPolicy 3) (innerStepOf inner)
        (fun _ => false) (fun _ => false) 0).2 = 3
    ∧ (RetryDecorator.Send (NewRetryPolicy 3) (innerStepOf inner)
        (fun _ => false) (fun _ => false) 0).1
      = (none, (inner 2).2) := by
  obtain ⟨e0, he0, hs0⟩ := hInner 0
  obtain ⟨e1, he1, hs1⟩ := hInner 1
  obtain ⟨e2, he2, hs2⟩ := hInner 2
  have hr0 := shouldRetry_500 e0 0 (by omega) hs0
  have hr1 := shouldRetry_500 e1 1 (by omega) hs1
  have hr2 := shouldRetry_500 e2 2 (by omega) hs2
  have hfin : RetryDecorator.Send (NewRetryPolicy 3) (innerStepOf inner)
      (fun _ => false) (fun _ => false) 0
      = ((none, some (GoError.httpErr e2)), 3) := by
    simp only [RetryDecorator.Send,
      show (NewRetryPolicy 3).maxAttempts.toNat = 3 from rfl]
    norm_num [RetryDecorator.SendS, innerStepOf, he0, he1, he2, hr0, hr1, hr2]
  rw [hfin, he2]
  exact ⟨rfl, rfl⟩

/-- Witness for C2: the constant 500-returning client. -/
theorem retry_exhausts_three_attempts_witness :
    (RetryDecorator.Send (NewRetryPolicy 3)
        (innerStepOf (fun _ => HTTPClientSend (DoResult.doOk 500)))
        (fun _ => false) (fun _ => false) 0).2 = 3
    ∧ (RetryDecorator.Send (NewRetryPolicy 3)
        (innerStepOf (fun _ => HTTPClientSend (DoResult.doOk 500)))
        (fun _ => false) (fun _ => false) 0).1
      = (none, (HTTPClientSend (DoResult.doOk 500)).2) :=
  retry_exhausts_three_attempts (fun _ => HTTPClientSend (DoResult.doOk 500))
    (fun _ => ⟨{ statusCode := 500, message := "request returned error status"
                 cause := none, response := some ⟨500⟩ }, rfl, rfl⟩)

/-- Any error coming out of the retry loop is either the stage's own
cancellation error (identifying the retry stage) or exactly an error
produced by one of the performed inner calls. -/
theorem retrySendS_error_provenance (rp : RetryPolicy) (inner : Nat → SendRes)
    (ctxB ctxS : Nat → Bool) (fuel : Nat) :
    ∀ (attempt calls : Nat) (lastErr : Option GoError),
      (lastErr = none ∨ ∃ i, i < calls ∧ lastErr = (inner i).2) →
      ((RetryDecorator.SendS rp (innerStepOf inner) ctxB ctxS fuel attempt calls lastErr).1.2
          = some cancelledDuringRetryError
        ∨ (RetryDecorator.SendS rp (innerStepOf inner) ctxB ctxS fuel attempt calls lastErr).1.2
          = some cancelledDuringBackoffError
        ∨ (RetryDecorator.SendS rp (innerStepOf inner) ctxB ctxS fuel attempt calls lastErr).1.2
          = none
        ∨ ∃ i, i < (RetryDecorator.SendS rp (innerStepOf inner) ctxB ctxS fuel attempt calls lastErr).2
            ∧ (RetryDecorator.SendS rp (innerStepOf inner) ctxB ctxS fuel attempt calls lastErr).1.2
              = (inner i).2) := by
  induction fuel with
  | zero =>
    intro attempt calls lastErr hLE
    rcases hLE with h | ⟨i, hi, h⟩
    · right; right; left
      simpa [RetryDecorator.SendS] using h
    · right; right; right
      exact ⟨i, by simpa [RetryDecorator.SendS] using hi,
        by simpa [RetryDecorator.SendS] using h⟩
  | succ f ih =>
    intro attempt calls lastErr hLE
    rw [RetryDecorator.SendS]
    by_cases hcb : ctxB attempt = true
    · rw [if_pos hcb]
      left; rfl
    · rw [if_neg hcb]
      dsimp only [innerStepOf]
      rcases hres : (inner calls).2 with _ | e
      · simp [hres]
      · simp only [hres]
        by_cases hsr : rp.ShouldRetry e (attempt : Int) = true
        · rw [if_pos hsr]
          by_cases hcs : ctxS attempt = true
          · rw [if_pos hcs]
            right; left; rfl
          · rw [if_neg hcs]
            exact ih (attempt + 1) (calls + 1) (some e)
              (Or.inr ⟨calls, Nat.lt_succ_self calls, hres.symm⟩)
        · rw [if_neg hsr]
          right; right; right
          exact ⟨calls, Nat.lt_succ_self calls, hres.symm⟩

/-- C9 (confirmed): every decorator either returns the inner result
unchanged or substitutes a distinct error naming the rejecting stage — the
HTTP client attaches the response to the error it returns for a 4xx/5xx
status; the retry decorator's final error is a stage-tagged cancellation
error or exactly an error produced by one of its inner calls, and over the
client it carries the 4xx/5xx response inside the returned
`*HTTPError`; the circuit breaker returns the wrapped result or its
circuit-open error; the rate limiter returns the wrapped result or one of
its two stage-tagged errors; the bulkhead returns the wrapped result, the
context's error, or its capacity error; logging and metrics pass results
through unchanged. -/
theorem decorator_error_propagation (sc : Int) (hsc1 : 400 ≤ sc) (hsc2 : sc < 600)
    (rp : RetryPolicy) (inner : Nat → SendRes) (ctxB ctxS : Nat → Bool)
    (cb : CircuitBreaker) (tcheck trec : Int) (fn : Unit → SendRes)
    (ctxDone : Bool) (waitErr : Option GoError) (bh : Bulkhead) (pick : Bool) :
    (HTTPClientSend (DoResult.doOk sc)
      = (some ⟨sc⟩, some (GoError.httpErr
          { statusCode := sc, message := "request returned error status"
            cause := none, response := some ⟨sc⟩ })))
    ∧ ((RetryDecorator.Send rp (innerStepOf inner) ctxB ctxS 0).1.2
          = some cancelledDuringRetryError
        ∨ (RetryDecorator.Send rp (innerStepOf inner) ctxB ctxS 0).1.2
          = some cancelledDuringBackoffError
        ∨ (RetryDecorator.Send rp (innerStepOf inner) ctxB ctxS 0).1.2 = none
        ∨ ∃ i, i < (RetryDecorator.Send rp (innerStepOf inner) ctxB ctxS 0).2
            ∧ (RetryDecorator.Send rp (innerStepOf inner) ctxB ctxS 0).1.2 = (inner i).2)
    ∧ ((RetryDecorator.Send (NewRetryPolicy 3)
          (innerStepOf (fun _ => HTTPClientSend (DoResult.doOk sc)))
          (fun _ => false) (fun _ => false) 0).1.2
        = some (GoError.httpErr
            { statusCode := sc, message := "request returned error status"
              cause := none, response := some ⟨sc⟩ }))
    ∧ ((cb.Execute tcheck trec fn).1 = fn ()
        ∨ (cb.Execute tcheck trec fn).1 = (none, some circuitOpenError))
    ∧ (RateLimiterDecorator.Send ctxDone waitErr fn = fn ()
        ∨ RateLimiterDecorator.Send ctxDone waitErr fn
          = (none, some (GoError.httpErr
              { statusCode := 0, message := "request cancelled before rate limiting"
                cause := some ErrCause.nonNet, response := none }))
        ∨ RateLimiterDecorator.Send ctxDone waitErr fn
          = (none, some (GoError.httpErr
              { statusCode := 0, message := "rate limit exceeded"
                cause := some ErrCause.nonNet, response := none })))
    ∧ ((bh.Execute ctxDone pick fn).result = fn ()
        ∨ (bh.Execute ctxDone pick fn).result = (none, some GoError.ctxCanceled)
        ∨ (bh.Execute ctxDone pick fn).result = (none, some bulkheadCapacityError))
    ∧ (LoggingDecorator.Send fn = fn () ∧ MetricsDecorator.Send fn = fn ()) := by
  have hclient : HTTPClientSend (DoResult.doOk sc)
      = (some ⟨sc⟩, some (GoError.httpErr
          { statusCode := sc, message := "request returned error status"
            cause := none, response := some ⟨sc⟩ })) := by
    unfold HTTPClientSend
    dsimp only
    rw [if_pos hsc1]
  refine ⟨hclient, ?_, ?_, ?_, ?_, ?_, rfl, rfl⟩
  · exact retrySendS_error_provenance rp inner ctxB ctxS rp.maxAttempts.toNat 0 0 none
      (Or.inl rfl)
  · set eSC : HTTPError :=
      { statusCode := sc, message := "request returned error status"
        cause := none, response := some ⟨sc⟩ } with heSC
    by_cases hsr : (NewRetryPolicy 3).ShouldRetry (GoError.httpErr eSC) 0 = true
    · have hsr1 : (NewRetryPolicy 3).ShouldRetry (GoError.httpErr eSC) 1 = true := by
        rw [RetryPolicy.shouldRetry_attempt_irrel (NewRetryPolicy 3) (GoError.httpErr eSC)
          1 0 (by decide) (by decide)]
        exact hsr
      have hsr2 : (NewRetryPolicy 3).ShouldRetry (GoError.httpErr eSC) 2 = true := by
        rw [RetryPolicy.shouldRetry_attempt_irrel (NewRetryPolicy 3) (GoError.httpErr eSC)
          2 0 (by decide) (by decide)]
        exact hsr
      simp only [RetryDecorator.Send,
        show (NewRetryPolicy 3).maxAttempts.toNat = 3 from rfl]
      norm_num [RetryDecorator.SendS, innerStepOf, hclient, hsr, hsr1, hsr2]
    · have hsr0 : (NewRetryPolicy 3).ShouldRetry (GoError.httpErr eSC) 0 = false := by
        simp only [Bool.not_eq_true] at hsr
        exact hsr
      simp only [RetryDecorator.Send,
        show (NewRetryPolicy 3).maxAttempts.toNat = 3 from rfl]
      norm_num [RetryDecorator.SendS, innerStepOf, hclient, hsr0]
  · by_cases hadm : (cb.canExecute tcheck).1 = true
    · left
      unfold CircuitBreaker.Execute
      dsimp only
      rw [if_pos hadm]
    · right
      unfold CircuitBreaker.Execute
      dsimp only
      rw [if_neg hadm]
  · cases ctxDone
    · cases waitErr
      · left; rfl
      · right; right; rfl
    · right; left; rfl
  · unfold Bulkhead.Execute
    split_ifs <;> simp

/-- Witness for C9 at a 404 client error, trivial inner clients, a fresh
breaker and bulkhead, a live context, and a successful rate-limiter wait. -/
theorem decorator_error_propagation_witness :
    (HTTPClientSend (DoResult.doOk 404)
      = (some ⟨404⟩, some (GoError.httpErr
          { statusCode := 404, message := "request returned error status"
            cause := none, response := some ⟨404⟩ })))
    ∧ ((RetryDecorator.Send (NewRetryPolicy 3) (innerStepOf (fun _ => (none, none)))
          (fun _ => false) (fun _ => false) 0).1.2 = some cancelledDuringRetryError
        ∨ (RetryDecorator.Send (NewRetryPolicy 3) (innerStepOf (fun _ => (none, none)))
          (fun _ => false) (fun _ => false) 0).1.2 = some cancelledDuringBackoffError
        ∨ (RetryDecorator.Send (NewRetryPolicy 3) (innerStepOf (fun _ => (none, none)))
          (fun _ => false) (fun _ => false) 0).1.2 = none
        ∨ ∃ i, i < (RetryDecorator.Send (NewRetryPolicy 3)
              (innerStepOf (fun _ => (none, none))) (fun _ => false) (fun _ => false) 0).2
            ∧ (RetryDecorator.Send (NewRetryPolicy 3) (innerStepOf (fun _ => (none, none)))
                (fun _ => false) (fun _ => false) 0).1.2
              = ((fun _ => ((none, none) : SendRes)) i).2)
    ∧ ((RetryDecorator.Send (NewRetryPolicy 3)
          (innerStepOf (fun _ => HTTPClientSend (DoResult.doOk 404)))
          (fun _ => false) (fun _ => false) 0).1.2
        = some (GoError.httpErr
            { statusCode := 404, message := "request returned error status"
              cause := none, response := some ⟨404⟩ }))
    ∧ (((NewCircuitBreaker 2 5).Execute 0 0 (fun _ => (none, none))).1
          = (fun _ => ((none, none) : SendRes)) ()
        ∨ ((NewCircuitBreaker 2 5).Execute 0 0 (fun _ => (none, none))).1
          = (none, some circuitOpenError))
    ∧ (RateLimiterDecorator.Send false none (fun _ => (none, none))
          = (fun _ => ((none, none) : SendRes)) ()
        ∨ RateLimiterDecorator.Send false none (fun _ => (none, none))
          = (none, some (GoError.httpErr
              { statusCode := 0, message := "request cancelled before rate limiting"
                cause := some ErrCause.nonNet, response := none }))
        ∨ RateLimiterDecorator.Send false none (fun _ => (none, none))
          = (none, some (GoError.httpErr
              { statusCode := 0, message := "rate limit exceeded"
                cause := some ErrCause.nonNet, response := none })))
    ∧ (((NewBulkhead 2).Execute false false (fun _ => (none, none))).result
          = (fun _ => ((none, none) : SendRes)) ()
        ∨ ((NewBulkhead 2).Execute false false (fun _ => (none, none))).result
          = (none, some GoError.ctxCanceled)
        ∨ ((NewBulkhead 2).Execute false false (fun _ => (none, none))).result
          = (none, some bulkheadCapacityError))
    ∧ (LoggingDecorator.Send (fun _ => (none, none)) = (fun _ => ((none, none) : SendRes)) ()
        ∧ MetricsDecorator.Send (fun _ => (none, none)) = (fun _ => ((none, none) : SendRes)) ()) :=
  decorator_error_propagation 404 (by decide) (by decide) (NewRetryPolicy 3)
    (fun _ => (none, none)) (fun _ => false) (fun _ => false) (NewCircuitBreaker 2 5) 0 0
    (fun _ => (none, none)) false none (NewBulkhead 2) false
